import Mathlib

/-!
Shallow embedding of the intelligent-RAG-agent backend (FastAPI + LangGraph
service), covering the reasoning-loop router (`app/core/graph.py`), the agent
tools (`app/core/agents.py`), the SQL execution service
(`app/services/sql_service.py`) and the query endpoint
(`app/api/v1/routes.py`).  External effects (vector store, LLM, database
connection) are passed in as oracles; a Python exception is modelled as
`Except.error`, a fallible call as a value of `Except String _`.
-/

set_option autoImplicit false

namespace RagAgent

/-- ASCII whitespace test matching Python str.strip / str.isspace. -/
def pyIsSpace (c : Char) : Bool :=
  c == ' ' || c == '\t' || c == '\n' || c == '\r' || c == '\x0b' || c == '\x0c'

/-- Python str.strip(): remove leading and trailing whitespace. -/
def pyStrip (s : String) : String :=
  ⟨((s.data.dropWhile pyIsSpace).reverse.dropWhile pyIsSpace).reverse⟩

/-- Python str.upper() on ASCII text, character by character. -/
def pyUpper (s : String) : String :=
  ⟨s.data.map Char.toUpper⟩

/-- The read-only policy gate test of `SQLService.execute_query`
(sql_service.py line 56): `sql_query.strip().upper().startswith('SELECT')`. -/
def startsWithSelect (sql_query : String) : Bool :=
  "SELECT".data.isPrefixOf (pyUpper (pyStrip sql_query)).data

/-- A fetched database row, represented by its textual rendering (the code
only ever interpolates a row into an f-string). -/
abbrev Row := String

/-- Result dictionary of `execute_query`: either the success dict
`{"success": True, "query", "row_count", "results"}` or the error dict
`{"error", "query"}` (the `"error" in result` test of agents.py). -/
inductive QueryResult where
  | success (query : String) (row_count : Nat) (results : List Row)
  | error (message : String) (query : String)
deriving DecidableEq, Repr

/-- Embedding of `execute_query` (sql_service.py lines 52-82).  `conn` models
`get_connection()` (which raises when the database URL is missing or the
connection fails — this call sits outside the function's try block, so its
failure propagates); `db` models `conn.fetch(sql_query)`, whose exception is
caught inside the function and returned as the error dict. -/
def execute_query (read_only : Bool) (conn : Except String Unit)
    (db : String → Except String (List Row)) (sql_query : String) :
    Except String QueryResult :=
  if read_only && !(startsWithSelect sql_query) then
    Except.ok (QueryResult.error "Only SELECT queries are allowed for safety" sql_query)
  else
    match conn with
    | Except.error e => Except.error e
    | Except.ok _ =>
      Except.ok (match db sql_query with
        | Except.ok rows => QueryResult.success sql_query rows.length (rows.take 100)
        | Except.error e => QueryResult.error e sql_query)

/-- A tool-invocation request produced by the model; only the `name` field is
inspected by the code under verification (`tool_call.get("name", "unknown")`,
routes.py line 54), a missing name being modelled by `none`. -/
structure ToolCall where
  name : Option String
deriving DecidableEq, Repr

/-- A conversation message.  `tool_calls = none` models a message object
without a `tool_calls` attribute (HumanMessage, SystemMessage, ToolMessage);
`some l` models an AIMessage carrying the list `l` of requests. -/
structure Message where
  content : String
  tool_calls : Option (List ToolCall)
deriving DecidableEq, Repr

/-- Embedding of the router `should_continue` (graph.py lines 26-36).
`messages[-1]` raises on an empty list, modelled by `none`; otherwise the
router answers "tools" when `hasattr(last_message, "tool_calls") and
last_message.tool_calls` is truthy, and "end" otherwise. -/
def should_continue (messages : List Message) : Option String :=
  match messages.getLast? with
  | none => none
  | some last_message =>
    match last_message.tool_calls with
    | some (_ :: _) => some "tools"
    | _ => some "end"

/-- A retrieved document chunk: page content plus the optional
`metadata['filename']` (agents.py line 24 reads
`doc.metadata.get('filename', 'unknown')`). -/
structure Doc where
  page_content : String
  filename : Option String
deriving DecidableEq, Repr

/-- Python `sep.join(list)`. -/
def pyJoin (sep : String) : List String → String
  | [] => ""
  | [x] => x
  | x :: y :: xs => x ++ sep ++ pyJoin sep (y :: xs)

/-- One formatted knowledge-base entry (agents.py line 24):
`f"Document {i+1} (from {doc.metadata.get('filename','unknown')}):\n{doc.page_content}"`. -/
def kb_entry (i : Nat) (doc : Doc) : String :=
  "Document " ++ toString (i + 1) ++ " (from " ++ doc.filename.getD "unknown" ++ "):\n"
    ++ doc.page_content

/-- The `enumerate(docs)` comprehension of agents.py lines 23-26. -/
def kb_entries (i : Nat) : List Doc → List String
  | [] => []
  | d :: ds => kb_entry i d :: kb_entries (i + 1) ds

/-- Embedding of the tool `search_knowledge_base` (agents.py lines 12-28).
`backend` models `vector_service.similarity_search(query, k)`.  The source
contains no try/except: a backend exception propagates out of the tool. -/
def search_knowledge_base (backend : String → Except String (List Doc))
    (query : String) : Except String String :=
  match backend query with
  | Except.error e => Except.error e
  | Except.ok docs =>
    match docs with
    | [] => Except.ok "No relevant documents found in knowledge base."
    | _ :: _ => Except.ok ("Knowledge Base Results: \n" ++ pyJoin "\n\n" (kb_entries 0 docs))

/-- The row-printing loop of agents.py lines 109-110:
`for i, row in enumerate(results[:10], 1): formatted_results += f"{i}. {row}\n"`. -/
def sql_row_lines (i : Nat) : List Row → String
  | [] => ""
  | r :: rs => toString i ++ ". " ++ r ++ "\n" ++ sql_row_lines (i + 1) rs

/-- The result-formatting tail of `sql_query_generator` (agents.py lines
99-117): the error dict becomes "Error executing query: ...", the success
dict is rendered with the row count, the first 10 rows, and a
"... and N more rows" suffix when more than 10 rows were returned. -/
def format_sql_results (result : QueryResult) : String :=
  match result with
  | QueryResult.error e q => "Error executing query: " ++ e ++ "\nGenerated Query: " ++ q
  | QueryResult.success q row_count results =>
    let header := "Query executed successfully!\n\nSQL Query: " ++ q
      ++ "\nRows returned: " ++ toString row_count ++ "\n\n"
    match results with
    | [] => header ++ "No results found."
    | _ :: _ =>
      let body := header ++ "Results:\n" ++ sql_row_lines 1 (results.take 10)
      if row_count > 10 then
        body ++ "\n... and " ++ toString (row_count - 10) ++ " more rows"
      else body

/-- Left-to-right, non-overlapping replacement on character lists, with a
fuel argument to keep the recursion structural. -/
def replaceAllAux (pat repl : List Char) : Nat → List Char → List Char
  | 0, s => s
  | _ + 1, [] => []
  | fuel + 1, c :: rest =>
    if pat.isPrefixOf (c :: rest) then
      repl ++ replaceAllAux pat repl fuel ((c :: rest).drop pat.length)
    else
      c :: replaceAllAux pat repl fuel rest

/-- Python `s.replace(pat, repl)` (replace every occurrence). -/
def pyReplace (s pat repl : String) : String :=
  ⟨replaceAllAux pat.data repl.data s.data.length s.data⟩

/-- The generation prompt of agents.py lines 76-88. -/
def sql_prompt (schema natural_language_query : String) : String :=
  "Given this database schema:\n\n" ++ schema
    ++ "\n\nGenerate a SQL query for this request: \"" ++ natural_language_query
    ++ "\"\n\nRequirements:\n- Return ONLY the SQL query, no explanation\n"
    ++ "- Use standard PostgreSQL syntax\n- Only SELECT queries (no INSERT, UPDATE, DELETE)\n"
    ++ "- Be precise and efficient\n\nSQL Query:"

/-- The markdown cleanup of agents.py lines 91-94:
`response.content.strip()` then `.replace('```sql','').replace('```','').strip()`. -/
def cleanup_sql (content : String) : String :=
  pyStrip (pyReplace (pyReplace (pyStrip content) "```sql" "") "```" "")

/-- The body of the try block of `sql_query_generator` (agents.py lines
68-117), in the exception monad: schema fetch, query generation, cleanup,
execution, formatting.  Any `Except.error` models an uncaught exception
inside the block.  The phases are oracles so that each of them can fail or
succeed independently — note, however, that in the source as written the
schema-fetch phase can only fail: `SQLService` defines a misspelled
`get_shema_info` (sql_service.py line 21) while agents.py line 73 calls
`get_schema_info()`, and `execute_query` (line 52) is a module-level
function, not a method, which moreover reads `self.settings` where
`__init__` sets `self.setting`; so in the real program both service calls
raise AttributeError and only the error path of this body is reachable
(see `real_schema_fetch`). -/
def sql_try_body (schema_fetch : Except String String)
    (llm : String → Except String String) (conn : Except String Unit)
    (db : String → Except String (List Row)) (read_only : Bool)
    (natural_language_query : String) : Except String String :=
  match schema_fetch with
  | Except.error e => Except.error e
  | Except.ok schema =>
    match llm (sql_prompt schema natural_language_query) with
    | Except.error e => Except.error e
    | Except.ok content =>
      match execute_query read_only conn db (cleanup_sql content) with
      | Except.error e => Except.error e
      | Except.ok result => Except.ok (format_sql_results result)

/-- Embedding of the tool `sql_query_generator` (agents.py lines 56-120):
the whole body runs inside `try ... except Exception as e: return f"Error in
SQL query generation: {str(e)}"`, so the tool always returns a plain string.
In the real program only the catch-all branch is ever taken (the schema
fetch raises AttributeError unconditionally, see `sql_try_body` and
`real_schema_fetch`); the success formatting of agents.py lines 103-117 is
dead code reachable only under the repo's test mocks. -/
def sql_query_generator (schema_fetch : Except String String)
    (llm : String → Except String String) (conn : Except String Unit)
    (db : String → Except String (List Row)) (read_only : Bool)
    (natural_language_query : String) : String :=
  match sql_try_body schema_fetch llm conn db read_only natural_language_query with
  | Except.ok s => s
  | Except.error e => "Error in SQL query generation: " ++ e

/-- SYSTEM_PROMPT of prompts.py. -/
def SYSTEM_PROMPT : String :=
  "You are intelligent assistant with access to:\n"
    ++ "1. Internal knowledge base (documents uploaded by users)\n"
    ++ "2. Web search (for current information)\n"
    ++ "3. SQL database query (for data analysis and database questions)  # ADD THIS LINE\n\n"
    ++ "IMPORTANT:\n- ALWAYS search the knowledge base FIRST for any document-related questions\n"
    ++ "- Use web search for current events, news, or when knowledge base has no results\n"
    ++ "- Use SQL queries when users ask about database data, analytics, or data analysis\n"
    ++ "- Use multiple tools if needed\n- Provide comprehensive answers with source citations"

/-- The function get_system_message() of prompts.py: a SystemMessage (no tool_calls
attribute). -/
def system_message : Message :=
  { content := SYSTEM_PROMPT, tool_calls := none }

/-- The message HumanMessage(request.query) (routes.py line 34). -/
def human_message (query : String) : Message :=
  { content := query, tool_calls := none }

/-- Truthiness of `last_message.tool_calls` together with the hasattr test. -/
def has_tool_calls (m : Message) : Bool :=
  match m.tool_calls with
  | some (_ :: _) => true
  | _ => false

/-- Embedding of the compiled LangGraph loop (graph.py lines 38-56): start at
the agent node, append the model reply, route through `should_continue`; on
"tools" the ToolNode appends one tool-result message per requested call (in
request order) and control returns to the agent node.  The source imposes no
iteration cap; `fuel` bounds the recursion and is irrelevant for runs that
terminate within it. -/
def run_agent_loop (llm : List Message → Message) (exec_tool : ToolCall → Message) :
    Nat → List Message → List Message
  | 0, messages => messages
  | fuel + 1, messages =>
    let response := llm messages
    let messages2 := messages ++ [response]
    if should_continue messages2 = some "tools" then
      run_agent_loop llm exec_tool fuel (messages2 ++ (response.tool_calls.getD []).map exec_tool)
    else
      messages2

/-- The inner accumulation of routes.py lines 53-56: look up the call's name
(defaulting to "unknown") and append it unless already present. -/
def insert_tool (acc : List String) (tool_call : ToolCall) : List String :=
  let tool_name := tool_call.name.getD "unknown"
  if tool_name ∈ acc then acc else acc ++ [tool_name]

/-- The tool-tracking pass of `query_agent` (routes.py lines 48-56): scan all
messages; for each message whose `tool_calls` attribute exists and is
non-empty, fold its calls into the accumulator. -/
def track_tools (messages : List Message) : List String :=
  messages.foldl
    (fun tool_used msg =>
      match msg.tool_calls with
      | some (tc :: tcs) => (tc :: tcs).foldl insert_tool tool_used
      | _ => tool_used)
    []

/-- The response model QueryResponse (schemas.py). -/
structure QueryResponse where
  query : String
  answer : String
  tool_used : List String
  sources : List String
  reasoning_steps : Nat
deriving DecidableEq, Repr

/-- Embedding of the endpoint `query_agent` (routes.py lines 24-64): seed the
state with the system message and the user's message, run the loop, read the
final answer from `messages[-1].content` (the message list is never empty),
collect the used tools, and report `len(messages) // 2` reasoning steps.
`sources` stays the empty list, as in the source. -/
def query_agent (llm : List Message → Message) (exec_tool : ToolCall → Message)
    (fuel : Nat) (query : String) : QueryResponse :=
  let initial := [system_message, human_message query]
  let messages := run_agent_loop llm exec_tool fuel initial
  { query := query
    answer := (match messages.getLast? with
      | some m => m.content
      | none => "")
    tool_used := track_tools messages
    sources := []
    reasoning_steps := messages.length / 2 }

/-- Modelled from the spec's words (tool-used tracking): the distinct tool
names of a name sequence in first-seen order, duplicates collapsed. -/
def first_seen_distinct : List String → List String
  | [] => []
  | n :: ns => n :: (first_seen_distinct ns).filter (fun m => m != n)

/-- The tool names requested by one message. -/
def msg_tool_names (m : Message) : List String :=
  match m.tool_calls with
  | some tcs => tcs.map (fun tc => tc.name.getD "unknown")
  | none => []

/-- All tool names requested across a conversation, in request order. -/
def all_tool_names (messages : List Message) : List String :=
  (messages.map msg_tool_names).flatten

/-- needle occurs as a contiguous substring of hay. -/
def Occurs (needle hay : String) : Prop :=
  ∃ l r, hay = l ++ needle ++ r

/-- Bool substring scan over character lists, for concrete checks. -/
def occursInChars (needle : List Char) : List Char → Bool
  | [] => needle.isEmpty
  | c :: rest => needle.isPrefixOf (c :: rest) || occursInChars needle rest

/-- Bool substring scan on strings. -/
def occursB (needle hay : String) : Bool :=
  occursInChars needle.data hay.data

/-- Bool suffix test on strings. -/
def strEndsWith (s suffix : String) : Bool :=
  suffix.data.isSuffixOf s.data

/-- The name-level accumulator step of routes.py lines 54-56: append the
name unless it is already present. -/
def insert_name (acc : List String) (n : String) : List String :=
  if n ∈ acc then acc else acc ++ [n]

/-- The schema-fetch phase as the real program wires it: agents.py line 73
evaluates `sql_service.get_schema_info()`, but `SQLService` defines only the
misspelled `get_shema_info` (sql_service.py line 21), so the attribute
lookup raises AttributeError with this message before any database work. -/
def real_schema_fetch : Except String String :=
  Except.error "'SQLService' object has no attribute 'get_schema_info'"

end RagAgent


namespace RagAgent

/-! ### Helper lemmas about substring occurrence -/

theorem occurs_mid (l needle r : String) : Occurs needle (l ++ needle ++ r) :=
  ⟨l, r, rfl⟩

theorem occurs_append_left {needle a : String} (b : String) (h : Occurs needle a) :
    Occurs needle (a ++ b) := by
  obtain ⟨l, r, rfl⟩ := h
  exact ⟨l, r ++ b, by rw [String.append_assoc, String.append_assoc]⟩

theorem occurs_append_right {needle b : String} (a : String) (h : Occurs needle b) :
    Occurs needle (a ++ b) := by
  obtain ⟨l, r, rfl⟩ := h
  exact ⟨a ++ l, r, by rw [String.append_assoc, String.append_assoc, String.append_assoc]⟩

theorem occurs_refl (s : String) : Occurs s s :=
  ⟨"", "", by rw [String.empty_append, String.append_empty]⟩

theorem occurs_of_mem_pyJoin (sep : String) (xs : List String) (x : String) (hx : x ∈ xs) :
    Occurs x (pyJoin sep xs) := by
  induction xs with
  | nil => cases hx
  | cons y ys ih =>
    cases hx with
    | head =>
      cases ys with
      | nil => exact occurs_refl x
      | cons z zs =>
        exact occurs_append_left _ (occurs_append_left _ (occurs_refl x))
    | tail _ hmem =>
      cases ys with
      | nil => cases hmem
      | cons z zs =>
        exact occurs_append_right _ (ih hmem)

/-! ### C1: the router ends exactly when the last message has no tool calls -/

/-- C1: for every conversation state whose message list is non-empty, the
router `should_continue` answers "end" exactly when the most recently
appended message carries an empty (`some []`) or absent (`none`)
tool-invocation-request list, and answers "tools" otherwise. -/
theorem c1_router_end_iff_no_tool_calls (messages : List Message) (m : Message)
    (hlast : messages.getLast? = some m) :
    (should_continue messages = some "end" ↔
      (m.tool_calls = none ∨ m.tool_calls = some [])) ∧
    (should_continue messages = some "tools" ↔
      ∃ c cs, m.tool_calls = some (c :: cs)) := by
  unfold should_continue
  rw [hlast]
  cases htc : m.tool_calls with
  | none => simp [htc]
  | some l =>
    cases l with
    | nil => simp [htc]
    | cons c cs =>
      refine ⟨by simp [htc], by simp [htc]⟩

/-- Witness for C1 at a concrete one-message conversation. -/
theorem c1_router_end_iff_no_tool_calls_witness :
    (should_continue [system_message] = some "end" ↔
      (system_message.tool_calls = none ∨ system_message.tool_calls = some [])) ∧
    (should_continue [system_message] = some "tools" ↔
      ∃ c cs, system_message.tool_calls = some (c :: cs)) :=
  c1_router_end_iff_no_tool_calls [system_message] system_message rfl

/-! ### C3: the read-only gate blocks non-SELECT statements before execution -/

/-- C3: in read-only mode, a statement whose stripped upper-casing does not
begin with SELECT makes `execute_query` return the policy-violation error
dict; the result is the same for every connection and database oracle, so
the statement is never sent to the database. -/
theorem c3_read_only_gate_blocks (conn : Except String Unit)
    (db : String → Except String (List Row)) (sql_query : String)
    (h : startsWithSelect sql_query = false) :
    execute_query true conn db sql_query =
      Except.ok (QueryResult.error "Only SELECT queries are allowed for safety" sql_query) := by
  unfold execute_query
  rw [h]
  rfl

/-- Witness for C3: "DROP TABLE x" is rejected even when both the connection
and the fetch oracle would fail loudly if they were consulted. -/
theorem c3_read_only_gate_blocks_witness :
    execute_query true (Except.error "connection raised")
      (fun _ => Except.error "fetch raised") "DROP TABLE x" =
      Except.ok (QueryResult.error "Only SELECT queries are allowed for safety" "DROP TABLE x") :=
  c3_read_only_gate_blocks _ _ _ rfl

/-! ### C4: knowledge-base tool and backend failures -/

/-- C4 counterexample: `search_knowledge_base` has no exception handler, so a
retrieval-backend failure is NOT returned as error text in an ordinary
result — the exception propagates to the caller, refuting the claim at this
concrete input. -/
theorem c4_counterexample :
    search_knowledge_base (fun _ => Except.error "vector store unreachable") "any query" =
      Except.error "vector store unreachable" ∧
    (search_knowledge_base (fun _ => Except.error "vector store unreachable")
      "any query").toOption = none := by
  exact ⟨rfl, rfl⟩

/-- C4 (amended): `search_knowledge_base` does not catch retrieval-backend
failures: whenever the backend raises, the same exception propagates
unchanged out of the tool to its caller. -/
theorem c4_kb_failure_propagates (backend : String → Except String (List Doc))
    (query e : String) (h : backend query = Except.error e) :
    search_knowledge_base backend query = Except.error e := by
  unfold search_knowledge_base
  rw [h]

/-- Witness for the amended C4 at a concrete failing backend. -/
theorem c4_kb_failure_propagates_witness :
    search_knowledge_base (fun _ => Except.error "backend down") "q" =
      Except.error "backend down" :=
  c4_kb_failure_propagates (fun _ => Except.error "backend down") "q" "backend down" rfl

/-! ### C9: the read-only gate inspects only the lexical prefix -/

/-- C9: the policy gate looks only at the lexical prefix of the statement:
every statement whose stripped upper-casing begins with SELECT makes
read-only `execute_query` behave exactly like the unrestricted one, and in
particular "SELECT 1; DROP TABLE x" — which contains "DROP TABLE" — passes
the gate and is handed to the database for execution. -/
theorem c9_gate_checks_only_lexical_head :
    (∀ (s : String) (conn : Except String Unit) (db : String → Except String (List Row)),
      startsWithSelect s = true →
      execute_query true conn db s = execute_query false conn db s) ∧
    startsWithSelect "SELECT 1; DROP TABLE x" = true ∧
    occursB "DROP TABLE" "SELECT 1; DROP TABLE x" = true ∧
    (∀ (db : String → Except String (List Row)) (rows : List Row),
      db "SELECT 1; DROP TABLE x" = Except.ok rows →
      execute_query true (Except.ok ()) db "SELECT 1; DROP TABLE x" =
        Except.ok (QueryResult.success "SELECT 1; DROP TABLE x" rows.length (rows.take 100))) := by
  refine ⟨fun s conn db h => ?_, rfl, rfl, fun db rows hdb => ?_⟩
  · unfold execute_query
    rw [h]
    rfl
  · unfold execute_query
    rw [hdb]
    rfl

/-- Witness for C9: the gate-irrelevance part at the lowercase statement
"select 2" and the execution part at a one-row database. -/
theorem c9_gate_checks_only_lexical_head_witness :
    execute_query true (Except.ok ()) (fun _ => Except.ok ["r"]) "select 2" =
      execute_query false (Except.ok ()) (fun _ => Except.ok ["r"]) "select 2" ∧
    execute_query true (Except.ok ()) (fun _ => Except.ok ["r"]) "SELECT 1; DROP TABLE x" =
      Except.ok (QueryResult.success "SELECT 1; DROP TABLE x"
        (["r"] : List Row).length ((["r"] : List Row).take 100)) :=
  ⟨c9_gate_checks_only_lexical_head.1 "select 2" (Except.ok ()) (fun _ => Except.ok ["r"]) rfl,
   c9_gate_checks_only_lexical_head.2.2.2 (fun _ => Except.ok ["r"]) ["r"] rfl⟩

/-! ### C10: row_count counts all rows, results are truncated to 100 -/

/-- C10: on every successful execution, the success dict reports
`row_count` equal to the full number of fetched rows while `results` is the
first-100 truncation, so `len(results) = min(row_count, 100)` and a fetch of
more than 100 rows reports a `row_count` exceeding the returned payload. -/
theorem c10_row_count_exceeds_truncated_results (read_only : Bool)
    (db : String → Except String (List Row)) (sql_query : String) (rows : List Row)
    (hgate : (read_only && !(startsWithSelect sql_query)) = false)
    (hdb : db sql_query = Except.ok rows) :
    execute_query read_only (Except.ok ()) db sql_query =
      Except.ok (QueryResult.success sql_query rows.length (rows.take 100)) ∧
    (rows.take 100).length = min rows.length 100 ∧
    (100 < rows.length → (rows.take 100).length < rows.length) := by
  refine ⟨?_, ?_, ?_⟩
  · unfold execute_query
    rw [hgate, hdb]
    rfl
  · rw [List.length_take, Nat.min_comm]
  · intro hlen
    rw [List.length_take]
    omega

/-- Witness for C10 at a 150-row fetch in read-only mode. -/
theorem c10_row_count_exceeds_truncated_results_witness :
    execute_query true (Except.ok ()) (fun _ => Except.ok (List.replicate 150 "r"))
      "SELECT * FROM t" =
      Except.ok (QueryResult.success "SELECT * FROM t" (List.replicate 150 "r").length
        ((List.replicate 150 "r").take 100)) ∧
    ((List.replicate 150 "r").take 100).length = min (List.replicate 150 "r").length 100 ∧
    ((List.replicate (150 : Nat) "r").take 100).length < (List.replicate 150 "r").length :=
  have h := c10_row_count_exceeds_truncated_results true
    (fun _ => Except.ok (List.replicate 150 "r")) "SELECT * FROM t"
    (List.replicate 150 "r") rfl rfl
  ⟨h.1, h.2.1, h.2.2 (by simp)⟩

/-! ### C2: the SQL tool converts every internal failure into error text -/

/-- C2: whatever fails inside the SQL tool — schema fetch, query generation,
connection acquisition during execution, or the fetch itself — the tool
returns a descriptive error string as its result; no exception of the try
block escapes `sql_query_generator`. -/
theorem c2_sql_tool_never_raises (schema_fetch : Except String String)
    (llm : String → Except String String) (conn : Except String Unit)
    (db : String → Except String (List Row)) (read_only : Bool)
    (natural_language_query : String) :
    (∀ e, schema_fetch = Except.error e →
      sql_query_generator schema_fetch llm conn db read_only natural_language_query =
        "Error in SQL query generation: " ++ e) ∧
    (∀ schema e, schema_fetch = Except.ok schema →
      llm (sql_prompt schema natural_language_query) = Except.error e →
      sql_query_generator schema_fetch llm conn db read_only natural_language_query =
        "Error in SQL query generation: " ++ e) ∧
    (∀ schema content e, schema_fetch = Except.ok schema →
      llm (sql_prompt schema natural_language_query) = Except.ok content →
      execute_query read_only conn db (cleanup_sql content) = Except.error e →
      sql_query_generator schema_fetch llm conn db read_only natural_language_query =
        "Error in SQL query generation: " ++ e) ∧
    (∀ schema content e, schema_fetch = Except.ok schema →
      llm (sql_prompt schema natural_language_query) = Except.ok content →
      execute_query read_only conn db (cleanup_sql content) =
        Except.ok (QueryResult.error e (cleanup_sql content)) →
      sql_query_generator schema_fetch llm conn db read_only natural_language_query =
        "Error executing query: " ++ e ++ "\nGenerated Query: " ++ cleanup_sql content) := by
  refine ⟨fun e h1 => ?_, fun schema e h1 h2 => ?_,
    fun schema content e h1 h2 h3 => ?_, fun schema content e h1 h2 h3 => ?_⟩
  · unfold sql_query_generator sql_try_body
    rw [h1]
  · unfold sql_query_generator sql_try_body
    simp only [h1, h2]
  · unfold sql_query_generator sql_try_body
    simp only [h1, h2, h3]
  · unfold sql_query_generator sql_try_body
    simp only [h1, h2, h3]
    rfl

/-- Witness for C2: concrete failures at each of the four phases. -/
theorem c2_sql_tool_never_raises_witness :
    sql_query_generator (Except.error "schema fetch failed")
      (fun _ => Except.ok "SELECT 1") (Except.ok ()) (fun _ => Except.ok []) true "q" =
      "Error in SQL query generation: schema fetch failed" ∧
    sql_query_generator (Except.ok "Table: t") (fun _ => Except.error "llm unreachable")
      (Except.ok ()) (fun _ => Except.ok []) true "q" =
      "Error in SQL query generation: llm unreachable" ∧
    sql_query_generator (Except.ok "Table: t") (fun _ => Except.ok "SELECT 1")
      (Except.error "SQL_TOOL_DATABASE_URL not configured") (fun _ => Except.ok []) true "q" =
      "Error in SQL query generation: SQL_TOOL_DATABASE_URL not configured" ∧
    sql_query_generator (Except.ok "Table: t") (fun _ => Except.ok "SELECT 1")
      (Except.ok ()) (fun _ => Except.error "syntax error at or near") true "q" =
      "Error executing query: syntax error at or near\nGenerated Query: SELECT 1" := by
  refine ⟨?_, ?_, ?_, ?_⟩
  · exact (c2_sql_tool_never_raises _ _ _ _ _ _).1 "schema fetch failed" rfl
  · exact (c2_sql_tool_never_raises _ _ _ _ _ _).2.1 "Table: t" "llm unreachable" rfl rfl
  · exact (c2_sql_tool_never_raises (Except.ok "Table: t") (fun _ => Except.ok "SELECT 1")
      (Except.error "SQL_TOOL_DATABASE_URL not configured") (fun _ => Except.ok []) true
      "q").2.2.1 "Table: t" "SELECT 1" "SQL_TOOL_DATABASE_URL not configured" rfl rfl rfl
  · exact (c2_sql_tool_never_raises (Except.ok "Table: t") (fun _ => Except.ok "SELECT 1")
      (Except.ok ()) (fun _ => Except.error "syntax error at or near") true
      "q").2.2.2 "Table: t" "SELECT 1" "syntax error at or near" rfl rfl rfl

/-! ### C5: output format for a 123-row SELECT -/

/-- C5: the claimed 123-row success output is unreachable in the program.
agents.py line 73 calls the service method `get_schema_info()`, which the
source never defines (only the misspelled `get_shema_info` exists, and
`execute_query` is mis-indented to module level, reading the misspelled
`self.settings`), so on every input, whatever the model and the database
would answer, the tool stops in its catch-all branch with the
AttributeError text and never emits the "Rows returned: 123" /
"... and 113 more rows" formatting.  The repo's own tests, which mock both
service methods and assert the success formatting, show the claimed output
is the intent and the code the slip. -/
theorem c5_sql_tool_schema_attribute_error (llm : String → Except String String)
    (conn : Except String Unit) (db : String → Except String (List Row))
    (read_only : Bool) (natural_language_query : String) :
    sql_query_generator real_schema_fetch llm conn db read_only natural_language_query =
      "Error in SQL query generation: "
        ++ "'SQLService' object has no attribute 'get_schema_info'" := by
  rfl

/-! ### C6: direct answer — message count, tool_used, reasoning_steps -/

set_option maxRecDepth 100000 in
/-- C6 counterexample: when the model answers directly, the completed
conversation holds 3 messages (system + user + assistant), not 2 as
claimed; `tool_used` is empty and `reasoning_steps` is 1 as claimed. -/
theorem c6_counterexample :
    (run_agent_loop (fun _ => { content := "Direct answer", tool_calls := some [] })
      (fun _ => { content := "tool", tool_calls := none }) 1
      [system_message, human_message "hello"]).length = 3 ∧
    ((run_agent_loop (fun _ => { content := "Direct answer", tool_calls := some [] })
      (fun _ => { content := "tool", tool_calls := none }) 1
      [system_message, human_message "hello"]).length == 2) = false ∧
    query_agent (fun _ => { content := "Direct answer", tool_calls := some [] })
      (fun _ => { content := "tool", tool_calls := none }) 1 "hello" =
      { query := "hello", answer := "Direct answer", tool_used := [],
        sources := [], reasoning_steps := 1 } := by
  refine ⟨by decide, by decide, by decide⟩

/-- C6 (amended): when the model answers the seeded conversation directly
(no tool requests), the completed conversation holds exactly 3 messages —
the system message, the user message and the assistant answer — and the
endpoint returns `tool_used = []`, `sources = []`, `reasoning_steps = 3 // 2
= 1`, with the assistant's text as the answer. -/
theorem c6_direct_answer_message_count (llm : List Message → Message)
    (exec_tool : ToolCall → Message) (fuel : Nat) (q : String)
    (h : has_tool_calls (llm [system_message, human_message q]) = false) :
    (run_agent_loop llm exec_tool (fuel + 1) [system_message, human_message q]).length = 3 ∧
    query_agent llm exec_tool (fuel + 1) q =
      { query := q, answer := (llm [system_message, human_message q]).content,
        tool_used := [], sources := [], reasoning_steps := 1 } := by
  have hsys : system_message.tool_calls = none := rfl
  have hhum : (human_message q).tool_calls = none := rfl
  have hsc : should_continue
      ([system_message, human_message q] ++ [llm [system_message, human_message q]]) =
      some "end" := by
    unfold should_continue
    rw [List.getLast?_concat]
    unfold has_tool_calls at h
    cases htc : (llm [system_message, human_message q]).tool_calls with
    | none => simp only [htc]
    | some l =>
      cases l with
      | nil => simp only [htc]
      | cons c cs => rw [htc] at h; simp at h
  have hloop : run_agent_loop llm exec_tool (fuel + 1) [system_message, human_message q] =
      [system_message, human_message q] ++ [llm [system_message, human_message q]] := by
    simp only [run_agent_loop]
    rw [hsc]
    simp
  have htrack : track_tools
      ([system_message, human_message q] ++ [llm [system_message, human_message q]]) = [] := by
    unfold track_tools
    unfold has_tool_calls at h
    cases htc : (llm [system_message, human_message q]).tool_calls with
    | none =>
      simp only [List.cons_append, List.nil_append, List.foldl_cons, List.foldl_nil,
        hsys, hhum, htc]
    | some l =>
      cases l with
      | nil =>
        simp only [List.cons_append, List.nil_append, List.foldl_cons, List.foldl_nil,
          hsys, hhum, htc]
      | cons c cs => rw [htc] at h; simp at h
  constructor
  · rw [hloop]
    simp
  · unfold query_agent
    dsimp only
    rw [hloop, htrack, List.getLast?_concat]
    simp

/-- Witness for the amended C6 at a concrete direct-answering model. -/
theorem c6_direct_answer_message_count_witness :
    (run_agent_loop (fun _ => { content := "Direct answer", tool_calls := some [] })
      (fun _ => { content := "tool", tool_calls := none }) 1
      [system_message, human_message "hi"]).length = 3 ∧
    query_agent (fun _ => { content := "Direct answer", tool_calls := some [] })
      (fun _ => { content := "tool", tool_calls := none }) 1 "hi" =
      { query := "hi", answer := "Direct answer", tool_used := [],
        sources := [], reasoning_steps := 1 } :=
  c6_direct_answer_message_count
    (fun _ => { content := "Direct answer", tool_calls := some [] })
    (fun _ => { content := "tool", tool_calls := none }) 0 "hi" rfl

/-- Occurrence is transitive. -/
theorem occurs_trans {a b c : String} (hab : Occurs a b) (hbc : Occurs b c) : Occurs a c := by
  obtain ⟨l1, r1, rfl⟩ := hab
  obtain ⟨l2, r2, rfl⟩ := hbc
  exact ⟨l2 ++ l1, r1 ++ r2, by simp [String.append_assoc]⟩

/-- Every member document contributes one formatted entry to `kb_entries`. -/
theorem kb_entry_mem (d : Doc) : ∀ (docs : List Doc), d ∈ docs → ∀ i : Nat,
    ∃ j, kb_entry j d ∈ kb_entries i docs := by
  intro docs
  induction docs with
  | nil => intro hd; cases hd
  | cons a l ih =>
    intro hd i
    cases hd with
    | head => exact ⟨i, List.mem_cons_self _ _⟩
    | tail _ hmem =>
      obtain ⟨j, hj⟩ := ih hmem (i + 1)
      exact ⟨j, List.mem_cons_of_mem _ hj⟩

/-! ### C7: knowledge-base output — sentinel and per-document content -/

/-- C7: on a backend answer, the knowledge-base tool returns the fixed
no-documents sentinel verbatim when zero documents match, and otherwise its
output text contains every document's source filename and every document's
content snippet. -/
theorem c7_kb_contains_all_documents (backend : String → Except String (List Doc))
    (query : String) (docs : List Doc) (h : backend query = Except.ok docs) :
    (docs = [] → search_knowledge_base backend query =
      Except.ok "No relevant documents found in knowledge base.") ∧
    (∀ d ∈ docs, ∃ out, search_knowledge_base backend query = Except.ok out ∧
      Occurs (d.filename.getD "unknown") out ∧ Occurs d.page_content out) := by
  constructor
  · intro hnil
    subst hnil
    unfold search_knowledge_base
    rw [h]
  · intro d hd
    obtain ⟨d0, ds, rfl⟩ : ∃ d0 ds, docs = d0 :: ds := by
      cases docs with
      | nil => cases hd
      | cons a l => exact ⟨a, l, rfl⟩
    refine ⟨"Knowledge Base Results: \n" ++ pyJoin "\n\n" (kb_entries 0 (d0 :: ds)), ?_, ?_, ?_⟩
    · unfold search_knowledge_base
      rw [h]
    · have hmem : ∃ i, kb_entry i d ∈ kb_entries 0 (d0 :: ds) := kb_entry_mem d (d0 :: ds) hd 0
      obtain ⟨i, hi⟩ := hmem
      refine occurs_append_right _ (occurs_trans ?_ (occurs_of_mem_pyJoin _ _ _ hi))
      unfold kb_entry
      exact ⟨"Document " ++ toString (i + 1) ++ " (from ",
        "):\n" ++ d.page_content, by simp [String.append_assoc]⟩
    · have hmem : ∃ i, kb_entry i d ∈ kb_entries 0 (d0 :: ds) := kb_entry_mem d (d0 :: ds) hd 0
      obtain ⟨i, hi⟩ := hmem
      refine occurs_append_right _ (occurs_trans ?_ (occurs_of_mem_pyJoin _ _ _ hi))
      unfold kb_entry
      exact ⟨"Document " ++ toString (i + 1) ++ " (from " ++ d.filename.getD "unknown"
        ++ "):\n", "", by simp [String.append_assoc, String.append_empty]⟩

/-- Witness for C7: the empty-result sentinel and a two-document backend
(the documents of the repo's own test fixture). -/
theorem c7_kb_contains_all_documents_witness :
    search_knowledge_base (fun _ => Except.ok ([] : List Doc)) "Nonexistent topic" =
      Except.ok "No relevant documents found in knowledge base." ∧
    (∃ out, search_knowledge_base
        (fun _ => Except.ok [⟨"This is a test document about AI", some "test.pdf"⟩,
          ⟨"Another document about machine learning", some "ml.pdf"⟩]) "What is AI?" =
        Except.ok out ∧
      Occurs "test.pdf" out ∧ Occurs "This is a test document about AI" out) := by
  constructor
  · exact (c7_kb_contains_all_documents (fun _ => Except.ok ([] : List Doc))
      "Nonexistent topic" [] rfl).1 rfl
  · exact (c7_kb_contains_all_documents
      (fun _ => Except.ok [⟨"This is a test document about AI", some "test.pdf"⟩,
        ⟨"Another document about machine learning", some "ml.pdf"⟩])
      "What is AI?"
      [⟨"This is a test document about AI", some "test.pdf"⟩,
       ⟨"Another document about machine learning", some "ml.pdf"⟩] rfl).2
      ⟨"This is a test document about AI", some "test.pdf"⟩ (List.mem_cons_self _ _)

/-! ### C8: tool_used is the distinct tool-name list in first-seen order -/

/-- Per-message step of the tracking pass, expressed over the message's
name list. -/
theorem track_body_eq (acc : List String) (m : Message) :
    (match m.tool_calls with
      | some (tc :: tcs) => (tc :: tcs).foldl insert_tool acc
      | _ => acc) = (msg_tool_names m).foldl insert_name acc := by
  cases htc : m.tool_calls with
  | none => simp [msg_tool_names, htc]
  | some l =>
    cases l with
    | nil => simp [msg_tool_names, htc]
    | cons tc tcs =>
      simp only [msg_tool_names, htc, List.foldl_map]
      rfl

/-- Fusing a fold of per-element folds into one fold over the flattened
list. -/
theorem foldl_flatten_fusion {α β γ : Type} (f : γ → α → γ) (g : β → List α)
    (h : γ → β → γ) (hstep : ∀ acc b, h acc b = (g b).foldl f acc) :
    ∀ (l : List β) (acc : γ), l.foldl h acc = ((l.map g).flatten).foldl f acc := by
  intro l
  induction l with
  | nil => intro acc; rfl
  | cons b l ih =>
    intro acc
    rw [List.foldl_cons, hstep, ih, List.map_cons, List.flatten_cons, List.foldl_append]

/-- The tracking pass is the fold of `insert_name` over all requested
names. -/
theorem track_tools_eq_foldl (messages : List Message) :
    track_tools messages = (all_tool_names messages).foldl insert_name [] :=
  foldl_flatten_fusion insert_name msg_tool_names _ track_body_eq messages []

/-- The pass first_seen_distinct commutes with filter. -/
theorem fsd_filter_comm (q : String → Bool) : ∀ l : List String,
    first_seen_distinct (l.filter q) = (first_seen_distinct l).filter q := by
  intro l
  induction l with
  | nil => rfl
  | cons a l ih =>
    cases hq : q a with
    | true =>
      rw [List.filter_cons_of_pos hq]
      simp only [first_seen_distinct]
      rw [List.filter_cons_of_pos hq, ih, List.filter_filter, List.filter_filter]
      refine congrArg (a :: ·) (List.filter_congr ?_)
      intro x _
      rw [Bool.and_comm]
    | false =>
      rw [List.filter_cons_of_neg (by simp [hq])]
      simp only [first_seen_distinct]
      rw [List.filter_cons_of_neg (by simp [hq]), ih, List.filter_filter]
      refine List.filter_congr ?_
      intro x _
      by_cases hxa : x = a
      · subst hxa
        simp [hq]
      · simp [hxa]

/-- Folding `insert_name` appends, after the accumulator, the first-seen
distinct sub-list of the names not already accumulated. -/
theorem foldl_insert_name_eq : ∀ (ns : List String) (acc : List String),
    ns.foldl insert_name acc =
      acc ++ first_seen_distinct (ns.filter (fun x => !(decide (x ∈ acc)))) := by
  intro ns
  induction ns with
  | nil => intro acc; simp [first_seen_distinct]
  | cons n ns ih =>
    intro acc
    by_cases h : n ∈ acc
    · rw [List.foldl_cons]
      have h1 : insert_name acc n = acc := by unfold insert_name; rw [if_pos h]
      rw [h1, ih, List.filter_cons_of_neg (by simp [h])]
    · rw [List.foldl_cons]
      have h1 : insert_name acc n = acc ++ [n] := by unfold insert_name; rw [if_neg h]
      rw [h1, ih, List.filter_cons_of_pos (by simp [h])]
      have hp : ns.filter (fun x => !(decide (x ∈ acc ++ [n]))) =
          (ns.filter (fun x => !(decide (x ∈ acc)))).filter (fun x => x != n) := by
        rw [List.filter_filter]
        refine List.filter_congr ?_
        intro x _
        by_cases hxa : x = n
        · subst hxa
          simp
        · simp [hxa, List.mem_append]
      rw [hp, fsd_filter_comm]
      simp only [first_seen_distinct]
      rw [List.append_assoc]
      rfl

/-- The first-seen distinct list has no duplicates. -/
theorem fsd_nodup : ∀ l : List String, (first_seen_distinct l).Nodup := by
  intro l
  induction l with
  | nil => exact List.nodup_nil
  | cons a l ih =>
    simp only [first_seen_distinct]
    rw [List.nodup_cons]
    refine ⟨?_, ih.filter _⟩
    intro hmem
    rcases List.mem_filter.mp hmem with ⟨_, hbne⟩
    simp at hbne

/-- The first-seen distinct list keeps exactly the names that occur. -/
theorem fsd_mem : ∀ (x : String) (l : List String), x ∈ first_seen_distinct l ↔ x ∈ l := by
  intro x l
  induction l with
  | nil => exact Iff.rfl
  | cons a l ih =>
    simp only [first_seen_distinct, List.mem_cons, List.mem_filter, ih]
    by_cases hxa : x = a
    · simp [hxa]
    · simp [hxa]

/-- C8: the `tool_used` list collected by the endpoint is the sequence of
distinct tool names requested across all assistant messages, in first-seen
order: it equals the first-seen-distinct pass over all requested names, has
no duplicates, and contains exactly the requested names. -/
theorem c8_tool_used_first_seen_distinct (messages : List Message) :
    track_tools messages = first_seen_distinct (all_tool_names messages) ∧
    (track_tools messages).Nodup ∧
    (∀ n, n ∈ track_tools messages ↔ n ∈ all_tool_names messages) := by
  have heq : track_tools messages = first_seen_distinct (all_tool_names messages) := by
    rw [track_tools_eq_foldl, foldl_insert_name_eq]
    simp
  refine ⟨heq, ?_, ?_⟩
  · rw [heq]
    exact fsd_nodup _
  · intro n
    rw [heq]
    exact fsd_mem n _

end RagAgent
